import Mathlib

/-!
Verification of the nagiosplugin check-result evaluation and serialization
engine.  The Rust sources in `src/lib.rs` and `src/runner.rs` are shallowly
embedded below: metric values are specialised to `Int` (the Rust code is
generic over `PartialOrd + ToPerfString`; every integer instance renders via
`Display`, which on `Int` agrees with Lean's `toString`), panicking paths
(`unwrap` on `None`, `unreachable!`) are modelled by an `Option` result, and
the process side effects of `print_and_exit` are modelled as the pair of the
printed text and the exit code.
-/

namespace NP

/-- `ServiceState` from `lib.rs`: the four-valued health status. -/
inductive ServiceState where
  | Ok
  | Warning
  | Critical
  | Unknown
deriving DecidableEq

/-- `ServiceState::exit_code`. -/
def ServiceState.exit_code : ServiceState → Int
  | .Ok => 0
  | .Warning => 1
  | .Critical => 2
  | .Unknown => 3

/-- `ServiceState::order_number`: rank used for ordering, Ok < Unknown < Warning < Critical. -/
def ServiceState.order_number : ServiceState → Nat
  | .Ok => 0
  | .Unknown => 1
  | .Warning => 2
  | .Critical => 3

/-- The `PartialOrd`/`Ord` comparison on `ServiceState` (via `order_number`), as a Bool `<`. -/
def ServiceState.lt_b (a b : ServiceState) : Bool :=
  a.order_number < b.order_number

/-- The `Display` implementation for `ServiceState`. -/
def ServiceState.display : ServiceState → String
  | .Ok => "OK"
  | .Warning => "WARNING"
  | .Critical => "CRITICAL"
  | .Unknown => "UNKNOWN"

/-- `TriggerIfValue` from `lib.rs`. -/
inductive TriggerIfValue where
  | Greater
  | Less
deriving DecidableEq

/-- `impl From<&TriggerIfValue> for Ordering`. -/
def TriggerIfValue.toOrdering : TriggerIfValue → Ordering
  | .Greater => .gt
  | .Less => .lt

/-- `UnitString` newtype (validated payload for `Unit::Other`). -/
structure UnitString where
  val : String
deriving DecidableEq

/-- `Unit` from `lib.rs` (unit of measurement tag). -/
inductive Unit where
  | None
  | Seconds
  | Milliseconds
  | Microseconds
  | Percentage
  | Bytes
  | Kilobytes
  | Megabytes
  | Gigabytes
  | Terabytes
  | Counter
  | Other (s : UnitString)
deriving DecidableEq

/-- `Unit::as_str`. -/
def Unit.as_str : Unit → String
  | .None => ""
  | .Seconds => "s"
  | .Milliseconds => "ms"
  | .Microseconds => "us"
  | .Percentage => "%"
  | .Bytes => "B"
  | .Kilobytes => "KB"
  | .Megabytes => "MB"
  | .Gigabytes => "GB"
  | .Terabytes => "TB"
  | .Counter => "c"
  | .Other s => s.val

/-- `ToPerfString` for the integer instances: Rust `Display`, i.e. decimal text. -/
def to_perf_string (v : Int) : String := toString v

/-- `Option::map_or_else(|| "".to_owned(), |v| v.to_perf_string())` as used in `PerfString::new`. -/
def optPerf : Option Int → String
  | none => ""
  | some v => to_perf_string v

/-- `Metric<T>` from `lib.rs`, with `T = Int`. -/
structure Metric where
  name : String
  value : Int
  unit : Unit
  thresholds : Option (Option Int × Option Int × TriggerIfValue)
  min : Option Int
  max : Option Int
  fixed_state : Option ServiceState
deriving DecidableEq

/-- `PerfString` newtype from `lib.rs`. -/
structure PerfString where
  val : String
deriving DecidableEq

/-- `PerfString::new`: renders `'{name}'={value}{unit};{warning};{critical};{minimum};{maximum}`.
The Rust code carries a `TODO: Sanitize name` comment and interpolates `name` verbatim. -/
def PerfString.new (name : String) (value : Int) (unit : Unit)
    (warning critical minimum maximum : Option Int) : PerfString :=
  ⟨"'" ++ name ++ "'=" ++ to_perf_string value ++ unit.as_str ++ ";" ++
    optPerf warning ++ ";" ++ optPerf critical ++ ";" ++
    optPerf minimum ++ ";" ++ optPerf maximum⟩

/-- `CheckResult` from `lib.rs`. -/
structure CheckResult where
  state : Option ServiceState
  message : Option String
  perf_string : Option PerfString
deriving DecidableEq

/-- The state computation of `impl From<Metric<T>> for CheckResult`: fixed state if set,
otherwise the chained iterator over `[(critical_cmp, Critical), (warning_cmp, Warning)]`
keeping the first entry whose comparison equals the trigger ordering or `Equal`. -/
def metricState (m : Metric) : Option ServiceState :=
  match m.fixed_state with
  | some state => some state
  | none =>
    match m.thresholds with
    | some (warning, critical, trigger) =>
      let ord := trigger.toOrdering
      let warning_cmp := warning.map (fun w => compare m.value w)
      let critical_cmp := critical.map (fun w => compare m.value w)
      (([(critical_cmp, ServiceState.Critical), (warning_cmp, ServiceState.Warning)].filterMap
        (fun p => p.1.bind
          (fun cmp => if cmp == ord || cmp == Ordering.eq then some p.2 else none))).head?)
    | none => none

/-- The message computation of `impl From<Metric<T>> for CheckResult`.
`none` models a panic: the Rust code calls `metric.thresholds.as_ref().unwrap()`,
`warning.as_ref().unwrap()` / `critical.as_ref().unwrap()`, and `unreachable!()`
inside the non-Ok branch; each of those aborts when its expectation fails. -/
def metricMessage (m : Metric) : Option (Option String) :=
  match metricState m with
  | some state =>
    if state ≠ ServiceState.Ok then
      match m.thresholds with
      | none => none
      | some (warning, critical, _) =>
        match state with
        | .Warning =>
          match warning with
          | none => none
          | some w => some (some ("metric '" ++ m.name ++ "' is " ++ state.display ++
              ": value '" ++ to_perf_string m.value ++ "' has exceeded threshold of '" ++
              to_perf_string w ++ "'"))
        | .Critical =>
          match critical with
          | none => none
          | some c => some (some ("metric '" ++ m.name ++ "' is " ++ state.display ++
              ": value '" ++ to_perf_string m.value ++ "' has exceeded threshold of '" ++
              to_perf_string c ++ "'"))
        | _ => none
    else some none
  | none => some none

/-- `impl From<Metric<T>> for CheckResult`, whole conversion; `none` models a panic. -/
def CheckResult.from_metric (m : Metric) : Option CheckResult :=
  (metricMessage m).map (fun message =>
    let wc : Option Int × Option Int :=
      match m.thresholds with
      | some (warning, critical, _) => (warning, critical)
      | none => (none, none)
    { state := metricState m
      message := message
      perf_string := some (PerfString.new m.name m.value m.unit wc.1 wc.2 m.min m.max) })

/-- `Resource` from `lib.rs`. -/
structure Resource where
  name : String
  results : List CheckResult
  fixed_state : Option ServiceState
  description : Option String
deriving DecidableEq

/-- Rust `str::trim`: drop leading and trailing whitespace.  Defined structurally over
the character list (Lean's built-in `String.trim` is not kernel-reducible); agrees with
Rust on all ASCII content. -/
def strTrim (s : String) : String :=
  ⟨((s.data.dropWhile Char.isWhitespace).reverse.dropWhile Char.isWhitespace).reverse⟩

/-- One iteration of the `for result in self.results` loop in `Resource::nagios_result`,
threading the `(final_state, messages, perf_string)` accumulator. -/
def nagiosStep (acc : ServiceState × String × String) (result : CheckResult) :
    ServiceState × String × String :=
  let fs := match result.state with
    | some state => if ServiceState.lt_b acc.1 state then state else acc.1
    | none => acc.1
  let ms := match result.message with
    | some message => acc.2.1 ++ strTrim message ++ "\n"
    | none => acc.2.1
  let ps := match result.perf_string with
    | some s => acc.2.2 ++ " " ++ strTrim s.val
    | none => acc.2.2
  (fs, ms, ps)

/-- `Resource::nagios_result`: computes the overall state and the full output text. -/
def Resource.nagios_result (r : Resource) : ServiceState × String :=
  let acc := r.results.foldl nagiosStep (ServiceState.Ok, "", "")
  let state := match r.fixed_state with
    | some s => s
    | none => acc.1
  let messages := acc.2.1
  let perf_string := acc.2.2
  let description := r.name ++ " is " ++ state.display ++
    (match r.description with
     | some d => ": " ++ strTrim d
     | none => "")
  let pad := if messages.isEmpty then "" else "\n\n"
  (state, description ++ pad ++ strTrim messages ++ "|" ++ perf_string)

/-- A Rust error value as seen by the two formatting traits: `Display` (used by
`thiserror`'s `#[error("...")]`) and `Debug` (used by `{:?}`). -/
structure ErrorRepr where
  display : String
  debug : String
deriving DecidableEq

/-- `RunnerResult<E>` from `runner.rs`. -/
inductive RunnerResult (E : Type) where
  | Ok (resource : Resource)
  | Err (state : ServiceState) (err : E)

/-- `Runner::safe_run` from `runner.rs`: the runner holds an optional `on_error`
handler; the check function's single invocation is modelled by its result. -/
def Runner.safe_run {E : Type} (on_error : Option (E → ServiceState × E))
    (f : Except E Resource) : RunnerResult E :=
  match f with
  | .ok resource => .Ok resource
  | .error err =>
    let sm := match on_error with
      | none => (ServiceState.Critical, err)
      | some g => g err
    .Err sm.1 sm.2

/-- `RunnerResult::print_and_exit` from `runner.rs`, modelled as (printed line, exit code).
The error branch prints with `println!("{}: {:?}", state, msg)` — `Debug` formatting. -/
def RunnerResult.print_and_exit {E : Type} (debugFmt : E → String) :
    RunnerResult E → String × Int
  | .Ok resource =>
    let res := resource.nagios_result
    (res.2, res.1.exit_code)
  | .Err state msg => (state.display ++ ": " ++ debugFmt msg, state.exit_code)

/-! Spec-side definitions.  Each is written from the specification's words and is
clearly named `spec…` (or is a direct transcription of a spec formula, like
`stateMax`); the claims compare them with the embedded code above. -/

/-- Modelled from the spec: `breach(bound)` holds iff comparing the value to the bound
yields the ordering implied by the direction, where exact equality also counts
(inclusive boundary). -/
def specBreach (v : Int) (d : TriggerIfValue) (b : Int) : Bool :=
  compare v b == d.toOrdering || compare v b == Ordering.eq

/-- Modelled from the spec: breach test lifted to an optional bound (an absent bound
is simply skipped). -/
def optBreach (v : Int) (d : TriggerIfValue) : Option Int → Bool
  | none => false
  | some b => specBreach v d b

/-- Modelled from the spec: Critical if the critical bound is present and breached,
else Warning if the warning bound is present and breached, else no status. -/
def specThreshold (v : Int) (w c : Option Int) (d : TriggerIfValue) : Option ServiceState :=
  if optBreach v d c then some ServiceState.Critical
  else if optBreach v d w then some ServiceState.Warning
  else none

/-- Modelled from the spec: the join (maximum) of two states under the rank order
Ok < Unknown < Warning < Critical. -/
def stateMax (a b : ServiceState) : ServiceState :=
  if a.order_number < b.order_number then b else a

/-- Concatenation of a list of strings, in list order. -/
def joinAll : List String → String
  | [] => ""
  | s :: rest => s ++ joinAll rest

/-- Modelled from the spec: the overall status of a Resource — the fixed override if
present, otherwise the rank-order maximum of all present per-result statuses
(Ok for an empty list). -/
def specOverall (r : Resource) : ServiceState :=
  match r.fixed_state with
  | some s => s
  | none => (r.results.filterMap CheckResult.state).foldl stateMax ServiceState.Ok

/-- Modelled from the spec (as amended): `<name> is <overall-status>`, then
`: <description>` iff a description is set, then a blank line and the message block
iff at least one message exists, then `|` in every case, then the performance segment
in which every trimmed fragment is preceded by a single space. -/
def specRender (r : Resource) : String :=
  let msgs := r.results.filterMap CheckResult.message
  let frags := r.results.filterMap CheckResult.perf_string
  r.name ++ " is " ++ (specOverall r).display ++
    (match r.description with
     | some d => ": " ++ strTrim d
     | none => "") ++
    (if msgs.isEmpty then "" else "\n\n") ++
    strTrim (joinAll (msgs.map (fun m => strTrim m ++ "\n"))) ++ "|" ++
    joinAll (frags.map (fun p => " " ++ strTrim p.val))

/-- Modelled from the spec: an absent performance-data field renders as the empty
string between its semicolons. -/
def fieldOrEmpty : Option Int → String
  | none => ""
  | some v => to_perf_string v

/-! Helper lemmas relating the `nagios_result` loop to the spec-side folds. -/

lemma lt_b_stateMax (a s : ServiceState) :
    (if ServiceState.lt_b a s then s else a) = stateMax a s := by
  cases a <;> cases s <;> rfl

lemma foldl_nagiosStep_state (rs : List CheckResult) (acc : ServiceState × String × String) :
    (rs.foldl nagiosStep acc).1 = (rs.filterMap CheckResult.state).foldl stateMax acc.1 := by
  induction rs generalizing acc with
  | nil => rfl
  | cons r rs ih =>
    rw [List.foldl_cons, ih]
    cases h : r.state with
    | none =>
      rw [List.filterMap_cons_none h]
      simp [nagiosStep, h]
    | some s =>
      rw [List.filterMap_cons_some h, List.foldl_cons]
      simp [nagiosStep, h, lt_b_stateMax]

lemma foldl_nagiosStep_msgs (rs : List CheckResult) (acc : ServiceState × String × String) :
    (rs.foldl nagiosStep acc).2.1 =
      acc.2.1 ++ joinAll ((rs.filterMap CheckResult.message).map (fun m => strTrim m ++ "\n")) := by
  induction rs generalizing acc with
  | nil => simp [joinAll, String.append_empty]
  | cons r rs ih =>
    rw [List.foldl_cons, ih]
    cases h : r.message with
    | none =>
      rw [List.filterMap_cons_none h]
      simp [nagiosStep, h]
    | some m =>
      rw [List.filterMap_cons_some h]
      simp [nagiosStep, h, joinAll, String.append_assoc]

lemma foldl_nagiosStep_perf (rs : List CheckResult) (acc : ServiceState × String × String) :
    (rs.foldl nagiosStep acc).2.2 =
      acc.2.2 ++ joinAll ((rs.filterMap CheckResult.perf_string).map (fun p => " " ++ strTrim p.val)) := by
  induction rs generalizing acc with
  | nil => simp [joinAll, String.append_empty]
  | cons r rs ih =>
    rw [List.foldl_cons, ih]
    cases h : r.perf_string with
    | none =>
      rw [List.filterMap_cons_none h]
      simp [nagiosStep, h]
    | some p =>
      rw [List.filterMap_cons_some h]
      simp [nagiosStep, h, joinAll, String.append_assoc]

lemma append_newline_ne_empty (a b : String) : a ++ "\n" ++ b ≠ "" := by
  intro h
  have hd := congrArg String.data h
  simp [String.data_append] at hd

lemma joinAll_msgs_isEmpty (l : List String) :
    (joinAll (l.map (fun m => strTrim m ++ "\n"))).isEmpty = l.isEmpty := by
  cases l with
  | nil => rfl
  | cons m rest =>
    simp only [List.map_cons, joinAll, List.isEmpty_cons]
    rw [← Bool.not_eq_true]
    intro hb
    exact append_newline_ne_empty _ _ ((String.isEmpty_iff _).mp hb)

lemma stateMax_left (a b : ServiceState) : a.order_number ≤ (stateMax a b).order_number := by
  cases a <;> cases b <;> decide

lemma stateMax_right (a b : ServiceState) : b.order_number ≤ (stateMax a b).order_number := by
  cases a <;> cases b <;> decide

lemma stateMax_eq_or (a b : ServiceState) : stateMax a b = a ∨ stateMax a b = b := by
  cases a <;> cases b <;> decide

lemma foldl_stateMax_ge_init (l : List ServiceState) (a : ServiceState) :
    a.order_number ≤ (l.foldl stateMax a).order_number := by
  induction l generalizing a with
  | nil => exact Nat.le_refl _
  | cons x l ih => exact Nat.le_trans (stateMax_left a x) (ih (stateMax a x))

lemma foldl_stateMax_ge_mem (l : List ServiceState) (a s : ServiceState) (hs : s ∈ l) :
    s.order_number ≤ (l.foldl stateMax a).order_number := by
  induction l generalizing a with
  | nil => cases hs
  | cons x l ih =>
    rcases List.mem_cons.mp hs with h | h
    · subst h
      exact Nat.le_trans (stateMax_right a s) (foldl_stateMax_ge_init l (stateMax a s))
    · exact ih (stateMax a x) h

lemma foldl_stateMax_mem_or_init (l : List ServiceState) (a : ServiceState) :
    l.foldl stateMax a = a ∨ l.foldl stateMax a ∈ l := by
  induction l generalizing a with
  | nil => exact Or.inl rfl
  | cons x l ih =>
    rcases ih (stateMax a x) with h | h
    · rcases stateMax_eq_or a x with h2 | h2
      · exact Or.inl (by rw [List.foldl_cons, h, h2])
      · exact Or.inr (by rw [List.foldl_cons, h, h2]; exact List.mem_cons_self _ _)
    · exact Or.inr (List.mem_cons_of_mem _ h)

lemma metricState_thresholds (name : String) (u : Unit) (mn mx : Option Int)
    (v : Int) (w c : Option Int) (d : TriggerIfValue) :
    metricState ⟨name, v, u, some (w, c, d), mn, mx, none⟩ = specThreshold v w c d := by
  cases c with
  | none =>
    cases w with
    | none => rfl
    | some wv =>
      rcases hw : compare v wv <;> cases d <;>
        simp only [metricState, specThreshold, specBreach, optBreach, hw,
          TriggerIfValue.toOrdering, Option.map, List.filterMap] <;> rfl
  | some cv =>
    cases w with
    | none =>
      rcases hc : compare v cv <;> cases d <;>
        simp only [metricState, specThreshold, specBreach, optBreach, hc,
          TriggerIfValue.toOrdering, Option.map, List.filterMap] <;> rfl
    | some wv =>
      rcases hc : compare v cv <;> rcases hw : compare v wv <;> cases d <;>
        simp only [metricState, specThreshold, specBreach, optBreach, hc, hw,
          TriggerIfValue.toOrdering, Option.map, List.filterMap] <;> rfl

/-! Claim theorems. -/

/-- C1 (code bug evidence): `PerfString::new` performs no name escaping — the name is
interpolated verbatim between single quotes (the source carries a `TODO: Sanitize name`
comment).  `test=a` renders as `'test=a'=…`, not `test_a=…`; `te'st` renders as
`'te'st'=…`, not `te''st=…`, contrary to the claimed escaping rules. -/
theorem c1_perf_name_unescaped :
    PerfString.new "test=a" 12 Unit.None none none none none = ⟨"'test=a'=12;;;;"⟩ ∧
    (PerfString.new "test=a" 12 Unit.None none none none none).val ≠ "test_a=12;;;;" ∧
    PerfString.new "te'st" 12 Unit.None none none none none = ⟨"'te'st'=12;;;;"⟩ ∧
    (PerfString.new "te'st" 12 Unit.None none none none none).val ≠ "te''st=12;;;;" := by
  refine ⟨rfl, by decide, rfl, by decide⟩

/-- C2: for a metric without fixed status and with configured thresholds, the computed
status is Critical if the critical bound is present and breached, else Warning if the
warning bound is present and breached, else absent, where a breach is the configured
direction or exact equality (inclusive boundary); including the spec's concrete table
for Greater (20, 50) and Less (30, 15). -/
theorem c2_threshold_evaluation :
    (∀ (name : String) (u : Unit) (mn mx : Option Int) (v : Int) (w c : Option Int)
        (d : TriggerIfValue),
      metricState ⟨name, v, u, some (w, c, d), mn, mx, none⟩ = specThreshold v w c d) ∧
    metricState ⟨"m", 15, Unit.None, some (some 20, some 50, .Greater), none, none, none⟩
      = none ∧
    metricState ⟨"m", 20, Unit.None, some (some 20, some 50, .Greater), none, none, none⟩
      = some ServiceState.Warning ∧
    metricState ⟨"m", 42, Unit.None, some (some 20, some 50, .Greater), none, none, none⟩
      = some ServiceState.Warning ∧
    metricState ⟨"m", 50, Unit.None, some (some 20, some 50, .Greater), none, none, none⟩
      = some ServiceState.Critical ∧
    metricState ⟨"m", 60, Unit.None, some (some 20, some 50, .Greater), none, none, none⟩
      = some ServiceState.Critical ∧
    metricState ⟨"m", 35, Unit.None, some (some 30, some 15, .Less), none, none, none⟩
      = none ∧
    metricState ⟨"m", 30, Unit.None, some (some 30, some 15, .Less), none, none, none⟩
      = some ServiceState.Warning ∧
    metricState ⟨"m", 15, Unit.None, some (some 30, some 15, .Less), none, none, none⟩
      = some ServiceState.Critical ∧
    metricState ⟨"m", 10, Unit.None, some (some 30, some 15, .Less), none, none, none⟩
      = some ServiceState.Critical := by
  refine ⟨metricState_thresholds, ?_, ?_, ?_, ?_, ?_, ?_, ?_, ?_, ?_⟩ <;> decide

/-- C4 (code bug evidence): converting a metric with a fixed non-Ok state panics when
the matching thresholds are absent (`thresholds.as_ref().unwrap()`), and a fixed
Unknown state always panics (`unreachable!`), contrary to the claim (and to the doc
comment of `with_fixed_state`); a fixed Ok state does convert. -/
theorem c4_fixed_state_conversion_panics :
    CheckResult.from_metric ⟨"foo", 1, Unit.None, none, none, none,
      some ServiceState.Warning⟩ = none ∧
    CheckResult.from_metric ⟨"foo", 1, Unit.None,
      some (some 1, some 2, TriggerIfValue.Greater), none, none,
      some ServiceState.Unknown⟩ = none ∧
    CheckResult.from_metric ⟨"foo", 1, Unit.None, none, none, none,
      some ServiceState.Ok⟩ =
      some ⟨some ServiceState.Ok, none, some ⟨"'foo'=1;;;;"⟩⟩ := by
  refine ⟨rfl, rfl, rfl⟩

/-- C6: `PerfString::new` renders the fixed positional fragment
`'<name>'=<value><unit>;<warning>;<critical>;<min>;<max>`, every absent field rendering
as an empty string with all four semicolons kept; concretely
`'foo'=12;42;;;60` for the spec's example. -/
theorem c6_perf_fragment_layout :
    (∀ (name : String) (v : Int) (u : Unit) (w c mn mx : Option Int),
      PerfString.new name v u w c mn mx =
        ⟨"'" ++ name ++ "'=" ++ to_perf_string v ++ u.as_str ++ ";" ++ fieldOrEmpty w ++
          ";" ++ fieldOrEmpty c ++ ";" ++ fieldOrEmpty mn ++ ";" ++ fieldOrEmpty mx⟩) ∧
    PerfString.new "foo" 12 Unit.None (some 42) none none (some 60) = ⟨"'foo'=12;42;;;60"⟩ := by
  constructor
  · intro name v u w c mn mx
    cases w <;> cases c <;> cases mn <;> cases mx <;> rfl
  · rfl

/-- C9 counterexample: the error branch of `RunnerResult::print_and_exit` formats the
error with `{:?}` (Debug), not `Display`: for an error whose Display form is `woops`
and whose Debug form is `EmptyError` (the repository's own test error type), the
printed line is `CRITICAL: EmptyError`, not `CRITICAL: woops`. -/
theorem c9_error_debug_not_display :
    RunnerResult.print_and_exit ErrorRepr.debug
        (Runner.safe_run none (Except.error ⟨"woops", "EmptyError"⟩)) =
      ("CRITICAL: EmptyError", 2) ∧
    ("CRITICAL: EmptyError" : String) ≠
      "CRITICAL: " ++ (ErrorRepr.mk "woops" "EmptyError").display := by
  refine ⟨rfl, by decide⟩

/-- C9 (amended): whenever the check function fails, the runner prints
`<STATUS>: <error-debug>` and exits with the chosen severity's exit code, bypassing the
Resource aggregator; with no handler the severity is Critical (exit code 2), and a
custom handler can map the same failure to Unknown (exit code 3). -/
theorem c9_error_path {E : Type} (dbg : E → String) (e : E) (g : E → ServiceState × E) :
    RunnerResult.print_and_exit dbg (Runner.safe_run none (Except.error e)) =
      (ServiceState.Critical.display ++ ": " ++ dbg e, 2) ∧
    RunnerResult.print_and_exit dbg (Runner.safe_run (some g) (Except.error e)) =
      ((g e).1.display ++ ": " ++ dbg (g e).2, (g e).1.exit_code) ∧
    RunnerResult.print_and_exit dbg
        (Runner.safe_run (some (fun x => (ServiceState.Unknown, x))) (Except.error e)) =
      (ServiceState.Unknown.display ++ ": " ++ dbg e, 3) := by
  refine ⟨rfl, rfl, rfl⟩

/-- C3: without a fixed override, the overall status returned by `nagios_result` is the
rank-order maximum of the statuses present among the CheckResults (Ok when none carry a
status): it equals the `stateMax` fold, bounds every present status from above, and is
itself Ok or one of the present statuses. -/
theorem c3_overall_is_max (r : Resource) (h : r.fixed_state = none) :
    (r.nagios_result).1 =
      (r.results.filterMap CheckResult.state).foldl stateMax ServiceState.Ok ∧
    (∀ s ∈ r.results.filterMap CheckResult.state,
      s.order_number ≤ ((r.nagios_result).1).order_number) ∧
    ((r.nagios_result).1 = ServiceState.Ok ∨
      (r.nagios_result).1 ∈ r.results.filterMap CheckResult.state) := by
  have hs : (r.nagios_result).1 =
      (r.results.filterMap CheckResult.state).foldl stateMax ServiceState.Ok := by
    simp [Resource.nagios_result, h, foldl_nagiosStep_state]
  refine ⟨hs, ?_, ?_⟩
  · intro s hsm
    rw [hs]
    exact foldl_stateMax_ge_mem _ _ _ hsm
  · rw [hs]
    exact foldl_stateMax_mem_or_init _ _

/-- C3 witness: a concrete Resource with Warning and Unknown results evaluates to the
fold of `stateMax`. -/
theorem c3_overall_is_max_witness :
    ((⟨"foo", [⟨some ServiceState.Warning, none, none⟩, ⟨some ServiceState.Unknown, none, none⟩],
        none, none⟩ : Resource).nagios_result).1 =
      (((⟨"foo", [⟨some ServiceState.Warning, none, none⟩, ⟨some ServiceState.Unknown, none, none⟩],
        none, none⟩ : Resource)).results.filterMap CheckResult.state).foldl stateMax
        ServiceState.Ok :=
  (c3_overall_is_max _ rfl).1

/-- C5 counterexample: the performance segment does not start directly after the `|`:
each fragment is pushed with a leading space, so a Resource with one perf-only result
renders `foo is OK| 'm'=1;;;;` and not `foo is OK|'m'=1;;;;`. -/
theorem c5_perf_segment_leading_space :
    (Resource.nagios_result ⟨"foo", [⟨none, none, some ⟨"'m'=1;;;;"⟩⟩], none, none⟩).2 =
      "foo is OK| 'm'=1;;;;" ∧
    ("foo is OK| 'm'=1;;;;" : String) ≠ "foo is OK|'m'=1;;;;" := by
  refine ⟨rfl, by decide⟩

/-- C5 (amended): the output of `nagios_result` is `<name> is <overall-status>`, then
`: <description>` iff a description is set, then a blank line and the message block iff
at least one message exists, then `|` in every case, then the performance segment in
which every trimmed fragment is preceded by a single space (so a space separates `|`
from the first fragment), in list order. -/
theorem c5_output_format (r : Resource) :
    r.nagios_result = (specOverall r, specRender r) := by
  have h1 := foldl_nagiosStep_state r.results (ServiceState.Ok, "", "")
  have h2 := foldl_nagiosStep_msgs r.results (ServiceState.Ok, "", "")
  have h3 := foldl_nagiosStep_perf r.results (ServiceState.Ok, "", "")
  simp only [Resource.nagios_result, specRender, specOverall, h1, h2, h3,
    String.empty_append, joinAll_msgs_isEmpty]

/-- C7: when threshold evaluation yields Warning (resp. Critical), the conversion
produces exactly the message
`metric '<name>' is <STATUS>: value '<value>' has exceeded threshold of '<bound>'`
with the warning (resp. critical) bound, both rendered with the performance-data
formatting; when it yields no status, no message is produced. -/
theorem c7_breach_message (name : String) (u : Unit) (mn mx : Option Int)
    (v : Int) (w c : Option Int) (d : TriggerIfValue) :
    (metricState ⟨name, v, u, some (w, c, d), mn, mx, none⟩ = some ServiceState.Warning →
      ∃ wv, w = some wv ∧
        CheckResult.from_metric ⟨name, v, u, some (w, c, d), mn, mx, none⟩ =
          some ⟨some ServiceState.Warning,
            some ("metric '" ++ name ++ "' is " ++ "WARNING" ++ ": value '" ++
              to_perf_string v ++ "' has exceeded threshold of '" ++ to_perf_string wv ++ "'"),
            some (PerfString.new name v u w c mn mx)⟩) ∧
    (metricState ⟨name, v, u, some (w, c, d), mn, mx, none⟩ = some ServiceState.Critical →
      ∃ cv, c = some cv ∧
        CheckResult.from_metric ⟨name, v, u, some (w, c, d), mn, mx, none⟩ =
          some ⟨some ServiceState.Critical,
            some ("metric '" ++ name ++ "' is " ++ "CRITICAL" ++ ": value '" ++
              to_perf_string v ++ "' has exceeded threshold of '" ++ to_perf_string cv ++ "'"),
            some (PerfString.new name v u w c mn mx)⟩) ∧
    (metricState ⟨name, v, u, some (w, c, d), mn, mx, none⟩ = none →
      CheckResult.from_metric ⟨name, v, u, some (w, c, d), mn, mx, none⟩ =
        some ⟨none, none, some (PerfString.new name v u w c mn mx)⟩) := by
  refine ⟨?_, ?_, ?_⟩
  · intro h
    have hspec := metricState_thresholds name u mn mx v w c d
    rw [h] at hspec
    cases w with
    | none =>
      exfalso
      cases hb : optBreach v d c <;> simp [specThreshold, optBreach, hb] at hspec
    | some wv =>
      refine ⟨wv, rfl, ?_⟩
      simp [CheckResult.from_metric, metricMessage, h, ServiceState.display,
        PerfString.new]
  · intro h
    have hspec := metricState_thresholds name u mn mx v w c d
    rw [h] at hspec
    cases c with
    | none =>
      exfalso
      cases hb : optBreach v d w <;> simp [specThreshold, optBreach, hb] at hspec
    | some cv =>
      refine ⟨cv, rfl, ?_⟩
      simp [CheckResult.from_metric, metricMessage, h, ServiceState.display,
        PerfString.new]
  · intro h
    simp [CheckResult.from_metric, metricMessage, h]

/-- C7 witness: the Warning branch at the repository test metric (value 42, warning 40,
critical 50, direction Greater). -/
theorem c7_breach_message_witness :
    CheckResult.from_metric ⟨"test", 42, Unit.None, some (some 40, some 50,
        TriggerIfValue.Greater), none, none, none⟩ =
      some ⟨some ServiceState.Warning,
        some ("metric '" ++ "test" ++ "' is " ++ "WARNING" ++ ": value '" ++
          to_perf_string 42 ++ "' has exceeded threshold of '" ++ to_perf_string 40 ++ "'"),
        some (PerfString.new "test" 42 Unit.None (some 40) (some 50) none none)⟩ := by
  obtain ⟨wv, hw, hres⟩ := (c7_breach_message "test" Unit.None none none 42 (some 40)
    (some 50) TriggerIfValue.Greater).1 (by rfl)
  cases hw
  exact hres

/-- C8: a fixed overall-status override on a Resource replaces the computed overall
status unconditionally, and changes nothing after the status name: the same tail
(description part, message block, performance segment) is produced with and without the
override; concretely an all-Ok Resource with a Critical override is Critical. -/
theorem c8_resource_override (r : Resource) (s : ServiceState) :
    (({ r with fixed_state := some s } : Resource).nagios_result).1 = s ∧
    (∃ tail,
      (({ r with fixed_state := some s } : Resource).nagios_result).2 =
        r.name ++ " is " ++ s.display ++ tail ∧
      ({ r with fixed_state := none } : Resource).nagios_result =
        ((r.results.filterMap CheckResult.state).foldl stateMax ServiceState.Ok,
          r.name ++ " is " ++
            ((r.results.filterMap CheckResult.state).foldl stateMax
              ServiceState.Ok).display ++ tail)) ∧
    (Resource.nagios_result ⟨"foo", [⟨some ServiceState.Ok, none, none⟩],
      some ServiceState.Critical, none⟩).1 = ServiceState.Critical := by
  refine ⟨by simp [Resource.nagios_result], ?_, rfl⟩
  refine ⟨(match r.description with
      | some d => ": " ++ strTrim d
      | none => "") ++
    ((if ((r.results.foldl nagiosStep (ServiceState.Ok, "", "")).2.1).isEmpty
        then "" else "\n\n") ++
      (strTrim (r.results.foldl nagiosStep (ServiceState.Ok, "", "")).2.1 ++
        ("|" ++ (r.results.foldl nagiosStep (ServiceState.Ok, "", "")).2.2))), ?_, ?_⟩
  · simp [Resource.nagios_result, String.append_assoc]
  · have h1 := foldl_nagiosStep_state r.results (ServiceState.Ok, "", "")
    simp [Resource.nagios_result, String.append_assoc, h1]

/-- C10: whenever conversion of a metric produces a CheckResult, its performance
fragment is present and is built from the metric's name, value, unit, threshold bounds,
minimum and maximum; hence the fragment of any such result contained in a Resource
appears among the fragments of the performance segment; and a metric with no
thresholds and no fixed status always converts, contributing neither status nor
message but a present fragment. -/
theorem c10_perf_fragment_present :
    (∀ (m : Metric) (cr : CheckResult),
      CheckResult.from_metric m = some cr →
        cr.perf_string = some (PerfString.new m.name m.value m.unit
          (match m.thresholds with | some (w, _, _) => w | none => none)
          (match m.thresholds with | some (_, c, _) => c | none => none)
          m.min m.max) ∧
        ∀ rs : List CheckResult, cr ∈ rs →
          PerfString.new m.name m.value m.unit
            (match m.thresholds with | some (w, _, _) => w | none => none)
            (match m.thresholds with | some (_, c, _) => c | none => none)
            m.min m.max ∈ rs.filterMap CheckResult.perf_string) ∧
    (∀ m : Metric, m.thresholds = none → m.fixed_state = none →
      CheckResult.from_metric m =
        some ⟨none, none,
          some (PerfString.new m.name m.value m.unit none none m.min m.max)⟩) := by
  have key : ∀ (m : Metric) (cr : CheckResult),
      CheckResult.from_metric m = some cr →
      cr.perf_string = some (PerfString.new m.name m.value m.unit
        (match m.thresholds with | some (w, _, _) => w | none => none)
        (match m.thresholds with | some (_, c, _) => c | none => none)
        m.min m.max) := by
    intro m cr h
    rcases Option.map_eq_some'.mp h with ⟨msg, hmsg, hcr⟩
    subst hcr
    cases hth : m.thresholds with
    | none => simp [hth]
    | some t =>
      rcases t with ⟨w2, c2, d2⟩
      simp [hth]
  refine ⟨fun m cr h => ⟨key m cr h, ?_⟩, ?_⟩
  · intro rs hmem
    exact List.mem_filterMap.mpr ⟨cr, hmem, key m cr h⟩
  · intro m h1 h2
    have hstate : metricState m = none := by
      simp [metricState, h1, h2]
    simp [CheckResult.from_metric, metricMessage, hstate, h1]

/-- C10 witness: concrete instances of both parts — the perf fragment of a converted
metric is present, and a bare metric (no thresholds, no fixed status) converts with a
present fragment and no status or message. -/
theorem c10_perf_fragment_present_witness :
    (⟨none, none, some ⟨"'t'=5;;;;"⟩⟩ : CheckResult).perf_string =
      some (PerfString.new "t" 5 Unit.None none none none none) ∧
    CheckResult.from_metric ⟨"q", 7, Unit.None, none, none, none, none⟩ =
      some ⟨none, none, some (PerfString.new "q" 7 Unit.None none none none none)⟩ :=
  ⟨(c10_perf_fragment_present.1 ⟨"t", 5, Unit.None, none, none, none, none⟩
      ⟨none, none, some ⟨"'t'=5;;;;"⟩⟩ rfl).1,
    c10_perf_fragment_present.2 ⟨"q", 7, Unit.None, none, none, none, none⟩ rfl rfl⟩

end NP
